import Mathlib

/-!
Shallow embedding of the wordblaster game-session state machine (src/app.py).

The session is a single mutable record guarded by one lock; every handler and
every timer body runs entirely inside the lock, so each is modelled as a pure
function on the session state.  Wall-clock instants (time.time()) are modelled
as integers (only comparisons against integer constants matter).  Background tasks launched with start_background_task are
modelled by returning the list of timer kinds scheduled by the operation, and
each timer body is a separate function applied at its firing time, taking the
round id it captured at launch as an argument.
-/

namespace WordBlaster

/-- The two teams, strings "A" and "B" in the source. -/
inductive Team
  | A
  | B
deriving DecidableEq

/-- The twelve phase strings stored in state["phase"]. -/
inductive Phase
  | intro
  | idle
  | countdown
  | active
  | scanning
  | scan_failed
  | bonus_intro
  | bonus_countdown
  | bonus_active
  | bonus_scanning
  | bonus_scan_failed
  | game_over
deriving DecidableEq

/-- The exact string each phase value holds in the Python state dict. -/
def phaseName : Phase → String
  | .intro => "intro"
  | .idle => "idle"
  | .countdown => "countdown"
  | .active => "active"
  | .scanning => "scanning"
  | .scan_failed => "scan_failed"
  | .bonus_intro => "bonus_intro"
  | .bonus_countdown => "bonus_countdown"
  | .bonus_active => "bonus_active"
  | .bonus_scanning => "bonus_scanning"
  | .bonus_scan_failed => "bonus_scan_failed"
  | .game_over => "game_over"

/-- Boolean check that pat occurs as a prefix of hay, on character lists. -/
def leadsWith : List Char → List Char → Bool
  | _, [] => true
  | [], _ :: _ => false
  | c :: hay, d :: pat => c == d && leadsWith hay pat

/-- Boolean substring check on character lists: Python `pat in hay`. -/
def containsSub (pat : List Char) : List Char → Bool
  | [] => pat.isEmpty
  | c :: hay => leadsWith (c :: hay) pat || containsSub pat hay

/-- Python `pat in hay` for strings, as used in on_scan_timeout. -/
def strContains (hay pat : String) : Bool :=
  containsSub pat.toList hay.toList

/-- A team record: {"name": ..., "score": ...}. -/
structure TeamRec where
  name : String
  score : Nat
deriving DecidableEq

/-- A last_result record.  The timeout results built by the timers omit the
len and tier keys; an absent key is modelled as none. -/
structure Result where
  id : ℤ
  word : String
  valid : Bool
  len : Option Nat
  tier : Option String
  points : Nat
  reason : String
deriving DecidableEq

/-- The session: the global `state` dict of src/app.py. -/
structure GameState where
  pair_index : Nat
  teamA : TeamRec
  teamB : TeamRec
  used_words : List String
  current_team : Team
  phase : Phase
  last_result : Option Result
  last_trigger_at : ℤ
  winning_team : Option Team
  bonus_submitted : Bool
  round_id : Nat
deriving DecidableEq

/-- The initial state literal of src/app.py lines 47-59. -/
def initial_state : GameState where
  pair_index := 0
  teamA := { name := "Team A", score := 0 }
  teamB := { name := "Team B", score := 0 }
  used_words := []
  current_team := Team.A
  phase := Phase.intro
  last_result := none
  last_trigger_at := 0
  winning_team := none
  bonus_submitted := false
  round_id := 0

/-- MIN_WORD_LEN = 5. -/
def MIN_WORD_LEN : Nat := 5

/-- POINTS_BY_LEN = {5: 3, 6: 5, 7: 8, 8: 13}, looked up with default 0. -/
def POINTS_BY_LEN (n : Nat) : Nat :=
  if n = 5 then 3 else if n = 6 then 5 else if n = 7 then 8 else if n = 8 then 13 else 0

/-- tier_for_len: str(n) if n in (5, 6, 7, 8) else None. -/
def tier_for_len (n : Nat) : Option String :=
  if n = 5 ∨ n = 6 ∨ n = 7 ∨ n = 8 then some (toString n) else none

/-- The tiered bonus scoring of submit lines 272-275 (pts starts at 0). -/
def bonus_points (n : Nat) : Nat :=
  if n = 5 then 7 else if n = 6 then 9 else if n = 7 then 13 else if 8 ≤ n then 20 else 0

/-- PAIRINGS list (display only). -/
def PAIRINGS : List (String × String) :=
  [("FESTIVAL", "PASSPORT"), ("PLAYTIME", "CAMPFIRE")]

/-- Kinds of background tasks the handlers schedule. -/
inductive TimerKind
  | countdownTimer
  | bonusTimer
  | scanWatchdog
  | resultClear
  | gameOverDelay
deriving DecidableEq

/-- The "B" if team == "A" else "A" flip. -/
def flipTeam : Team → Team
  | Team.A => Team.B
  | Team.B => Team.A

/-- Add pts to the submitting team's score. -/
def addScore (t : Team) (pts : Nat) (s : GameState) : GameState :=
  match t with
  | Team.A => { s with teamA := { s.teamA with score := s.teamA.score + pts } }
  | Team.B => { s with teamB := { s.teamB with score := s.teamB.score + pts } }

/-- Current score of a team. -/
def scoreOf (t : Team) (s : GameState) : Nat :=
  match t with
  | Team.A => s.teamA.score
  | Team.B => s.teamB.score

/-- The phases in which submit takes its bonus branch (line 255). -/
def bonusBranchPhases : List Phase :=
  [Phase.bonus_active, Phase.bonus_scanning, Phase.bonus_scan_failed]

/-- All five phases whose name starts with bonus. -/
def allBonusPhases : List Phase :=
  [Phase.bonus_intro, Phase.bonus_countdown, Phase.bonus_active,
   Phase.bonus_scanning, Phase.bonus_scan_failed]

/-- Whitespace test for the strip below. -/
def isSpaceChar (c : Char) : Bool :=
  c == ' ' || c == '\t' || c == '\n' || c == '\r'

/-- Python str.strip: drop whitespace from both ends. -/
def stripStr (s : String) : String :=
  String.mk (((s.toList.dropWhile isSpaceChar).reverse.dropWhile isSpaceChar).reverse)

/-- Python str.lower, on the ASCII range the game uses. -/
def lowerStr (s : String) : String :=
  String.mk (s.toList.map Char.toLower)

/-- Response payload of the submit route. -/
structure SubmitResp where
  valid : Bool
  points : Nat
  reason : String
deriving DecidableEq

/-- start_game (lines 178-201): full reset, optional team renames, returns ok.
Python truthiness: a name is applied only when present and non-empty. -/
def start_game (nameA nameB : Option String) (s : GameState) : GameState × Bool :=
  let s1 := { s with pair_index := (s.pair_index + 1) % PAIRINGS.length }
  let s2 := match nameA with
    | some nm => if nm ≠ "" then { s1 with teamA := { s1.teamA with name := nm } } else s1
    | none => s1
  let s3 := match nameB with
    | some nm => if nm ≠ "" then { s2 with teamB := { s2.teamB with name := nm } } else s2
    | none => s2
  ({ s3 with
      teamA := { s3.teamA with score := 0 }
      teamB := { s3.teamB with score := 0 }
      used_words := []
      current_team := Team.A
      phase := Phase.intro
      last_result := none
      winning_team := none
      bonus_submitted := false
      last_trigger_at := 0
      round_id := s3.round_id + 1 }, true)

/-- init_bonus (lines 203-221): winner is A on ties. -/
def init_bonus (s : GameState) : GameState :=
  let w := if s.teamB.score ≤ s.teamA.score then Team.A else Team.B
  { s with
      winning_team := some w
      current_team := w
      phase := Phase.bonus_intro
      last_result := none
      bonus_submitted := false }

/-- reset_game (lines 223-234): back to intro with scores zeroed. -/
def reset_game (s : GameState) : GameState :=
  { s with
      phase := Phase.intro
      teamA := { s.teamA with score := 0 }
      teamB := { s.teamB with score := 0 }
      winning_team := none
      last_result := none
      bonus_submitted := false }

/-- The bonus branch of submit (lines 255-289), entered with the already
submitted guard passed.  word is the stripped lowercased input. -/
def submit_bonus (words : List String) (now : ℤ) (word : String) (s : GameState) :
    GameState × SubmitResp × List TimerKind :=
  let n := word.length
  let team := s.current_team
  let vrp : Bool × String × Nat :=
    if n < 5 then (false, "too_short", 0)
    else if word ∉ words then (false, "not_in_dictionary", 0)
    else (true, "BONUS_CLEARED", bonus_points n)
  let s1 := if vrp.1 then addScore team vrp.2.2 s else s
  let r : Result :=
    { id := now, word := word, valid := vrp.1, len := some n,
      tier := some (toString n), points := vrp.2.2, reason := vrp.2.1 }
  ({ s1 with last_result := some r, bonus_submitted := true, phase := Phase.bonus_intro },
   { valid := vrp.1, points := vrp.2.2, reason := vrp.2.1 },
   [TimerKind.gameOverDelay])

/-- The standard branch of submit (lines 292-314).  word is the stripped
lowercased input. -/
def submit_standard (words : List String) (now : ℤ) (word : String) (s : GameState) :
    GameState × SubmitResp × List TimerKind :=
  let n := word.length
  let team := s.current_team
  let vrp : Bool × String × Nat :=
    if n < MIN_WORD_LEN then (false, "too_short", 0)
    else if word ∈ s.used_words then (false, "duplicate", 0)
    else if word ∉ words then (false, "not_in_dictionary", 0)
    else (true, "ok", POINTS_BY_LEN n)
  let s1 :=
    if vrp.1 then addScore team vrp.2.2 { s with used_words := word :: s.used_words } else s
  let r : Result :=
    { id := now, word := word, valid := vrp.1, len := some n,
      tier := tier_for_len n, points := vrp.2.2, reason := vrp.2.1 }
  ({ s1 with
      last_result := some r
      phase := Phase.idle
      current_team := flipTeam team },
   { valid := vrp.1, points := vrp.2.2, reason := vrp.2.1 },
   [TimerKind.resultClear])

/-- submit (lines 236-321): strips and lowercases the word, then routes to the
bonus branch when the phase is bonus_active, bonus_scanning or
bonus_scan_failed, short-circuiting on bonus_submitted, and to the standard
branch in every other phase. -/
def submit (words : List String) (now : ℤ) (raw : String) (s : GameState) :
    GameState × SubmitResp × List TimerKind :=
  let word := lowerStr (stripStr raw)
  if s.phase ∈ bonusBranchPhases then
    if s.bonus_submitted then
      (s, { valid := false, points := 0, reason := "already_submitted" }, [])
    else
      submit_bonus words now word s
  else
    submit_standard words now word s

/-- on_trigger (lines 323-354): debounced moderator trigger. -/
def on_trigger (now : ℤ) (s : GameState) : GameState × List TimerKind :=
  if now - s.last_trigger_at < 2 then (s, [])
  else
    let s1 := { s with last_trigger_at := now }
    match s1.phase with
    | Phase.intro => ({ s1 with phase := Phase.idle }, [])
    | Phase.idle =>
        ({ s1 with phase := Phase.countdown, last_result := none, round_id := s1.round_id + 1 },
         [TimerKind.countdownTimer])
    | Phase.bonus_intro =>
        ({ s1 with
            phase := Phase.bonus_countdown
            bonus_submitted := false
            round_id := s1.round_id + 1 },
         [TimerKind.bonusTimer])
    | Phase.active => ({ s1 with phase := Phase.scanning }, [TimerKind.scanWatchdog])
    | Phase.bonus_active => ({ s1 with phase := Phase.bonus_scanning }, [TimerKind.scanWatchdog])
    | _ => (s1, [])

/-- on_trigger_snapshot (lines 356-368): manual capture shortcut, no debounce. -/
def on_trigger_snapshot (s : GameState) : GameState × List TimerKind :=
  if s.phase = Phase.active ∨ s.phase = Phase.countdown then
    ({ s with phase := Phase.scanning }, [TimerKind.scanWatchdog])
  else if s.phase = Phase.bonus_active ∨ s.phase = Phase.bonus_countdown then
    ({ s with phase := Phase.bonus_scanning }, [TimerKind.scanWatchdog])
  else (s, [])

/-- on_scan_timeout (lines 370-378): unconditional, keyed on the substring
bonus occurring in the phase string. -/
def on_scan_timeout (s : GameState) : GameState :=
  if strContains (phaseName s.phase) "bonus" then { s with phase := Phase.bonus_scan_failed }
  else { s with phase := Phase.scan_failed }

/-- First wake of do_countdown (lines 399-402): after 3s, countdown to active
if the phase and the captured round id still match. -/
def do_countdown_tick (my_round_id : Nat) (s : GameState) : GameState :=
  if s.phase = Phase.countdown ∧ s.round_id = my_round_id then { s with phase := Phase.active }
  else s

/-- Second wake of do_countdown (lines 406-419): after 30s more, time the
active round out if the phase and the captured round id still match. -/
def do_countdown_timeout (my_round_id : Nat) (now : ℤ) (s : GameState) :
    GameState × List TimerKind :=
  if s.phase = Phase.active ∧ s.round_id = my_round_id then
    ({ s with
        phase := Phase.idle
        last_result := some
          { id := now, word := "", valid := false, len := none, tier := none,
            points := 0, reason := "TIMEOUT" }
        current_team := flipTeam s.current_team },
     [TimerKind.resultClear])
  else (s, [])

/-- First wake of do_bonus_round (lines 428-431). -/
def do_bonus_round_tick (my_round_id : Nat) (s : GameState) : GameState :=
  if s.phase = Phase.bonus_countdown ∧ s.round_id = my_round_id then
    { s with phase := Phase.bonus_active }
  else s

/-- Second wake of do_bonus_round (lines 435-449): also guarded on the bonus
not having been submitted. -/
def do_bonus_round_timeout (my_round_id : Nat) (now : ℤ) (s : GameState) :
    GameState × List TimerKind :=
  if s.phase = Phase.bonus_active ∧ s.round_id = my_round_id ∧ s.bonus_submitted = false then
    ({ s with
        last_result := some
          { id := now, word := "", valid := false, len := none, tier := none,
            points := 0, reason := "TIME_EXPIRED" }
        bonus_submitted := true
        phase := Phase.bonus_intro },
     [TimerKind.gameOverDelay])
  else (s, [])

/-- scan_watchdog (lines 452-468): round id checked first, then the phase. -/
def scan_watchdog (my_round_id : Nat) (s : GameState) : GameState :=
  if s.round_id ≠ my_round_id then s
  else if s.phase = Phase.scanning then { s with phase := Phase.scan_failed }
  else if s.phase = Phase.bonus_scanning then { s with phase := Phase.bonus_scan_failed }
  else s

/-- clear_result_after_delay (lines 98-104): clears last_result when the phase
is idle; no round id check. -/
def clear_result_after_delay (s : GameState) : GameState :=
  if s.phase = Phase.idle then { s with last_result := none } else s

/-- transition_to_game_over (lines 90-96): unconditional; no guard of any
kind. -/
def transition_to_game_over (s : GameState) : GameState :=
  { s with phase := Phase.game_over }

/-- One event of the system: a route handler, a socket handler, or the firing
of one wake of a background timer (carrying the round id it captured). -/
inductive Op
  | opStartGame (nameA nameB : Option String)
  | opInitBonus
  | opResetGame
  | opSubmit (now : ℤ) (raw : String)
  | opTrigger (now : ℤ)
  | opTriggerSnapshot
  | opScanTimeout
  | opCountdownTick (my : Nat)
  | opCountdownTimeout (my : Nat) (now : ℤ)
  | opBonusTick (my : Nat)
  | opBonusTimeout (my : Nat) (now : ℤ)
  | opScanWatchdog (my : Nat)
  | opClearResult
  | opGameOver
deriving DecidableEq

/-- Effect of one event on the session. -/
def step (words : List String) (s : GameState) : Op → GameState
  | Op.opStartGame a b => (start_game a b s).1
  | Op.opInitBonus => init_bonus s
  | Op.opResetGame => reset_game s
  | Op.opSubmit now raw => (submit words now raw s).1
  | Op.opTrigger now => (on_trigger now s).1
  | Op.opTriggerSnapshot => (on_trigger_snapshot s).1
  | Op.opScanTimeout => on_scan_timeout s
  | Op.opCountdownTick my => do_countdown_tick my s
  | Op.opCountdownTimeout my now => (do_countdown_timeout my now s).1
  | Op.opBonusTick my => do_bonus_round_tick my s
  | Op.opBonusTimeout my now => (do_bonus_round_timeout my now s).1
  | Op.opScanWatchdog my => scan_watchdog my s
  | Op.opClearResult => clear_result_after_delay s
  | Op.opGameOver => transition_to_game_over s

/-- Run a sequence of events. -/
def run (words : List String) (s : GameState) : List Op → GameState
  | [] => s
  | op :: ops => run words (step words s op) ops

/-- The two operations that zero the scores. -/
def isFullReset : Op → Bool
  | Op.opStartGame _ _ => true
  | Op.opResetGame => true
  | _ => false

/-- The external snapshot emit_state builds (safe_state): in the source it is
a copy of the state dict with used_words rendered as a list; here used_words
is already a list, so serialization is the identity copy. -/
def serialize (s : GameState) : GameState := s

/-- emit_state (lines 64-88) as a function of the force flag, the last
published snapshot (the deepcopy saved at line 80, hence a value), and the
session; returns whether a push happened and the new saved snapshot. -/
def emit_state (force : Bool) (last : Option GameState) (s : GameState) :
    Bool × Option GameState :=
  let safe := serialize s
  if force = false ∧ last = some safe then (false, last)
  else (true, some safe)

/-- A small concrete dictionary standing in for data/words.txt. -/
def demoWords : List String := ["apple", "orange", "festival"]

/-- A state sitting in the idle phase with a previously accepted trigger
recorded at time 0. -/
def exIdle : GameState := { initial_state with phase := Phase.idle }

/-- A state in generation 1: its round id was bumped after some timers were
launched in generation 0. -/
def exGen1 : GameState := { initial_state with round_id := 1 }

/-- A state in the bonus_intro phase with the bonus not yet submitted. -/
def exBonusIntro : GameState := { initial_state with phase := Phase.bonus_intro }

/-- A state in the bonus_intro phase right after a bonus submission was
consumed (phase set back to bonus_intro, bonus_submitted true). -/
def exAlready : GameState :=
  { initial_state with phase := Phase.bonus_intro, bonus_submitted := true }

/-- A state with a nonzero score for team A. -/
def exScore3 : GameState :=
  { initial_state with teamA := { name := "Team A", score := 3 } }

/-- A state in the bonus_active phase, bonus not yet submitted. -/
def exBonusActive : GameState := { initial_state with phase := Phase.bonus_active }

/-- A state in the bonus_active phase after the bonus was consumed. -/
def exBonusActiveDone : GameState :=
  { initial_state with phase := Phase.bonus_active, bonus_submitted := true }

/-- The substring test of on_scan_timeout agrees with membership in the five
bonus phases. -/
theorem strContains_bonus (p : Phase) :
    strContains (phaseName p) "bonus" = decide (p ∈ allBonusPhases) := by
  cases p <;> decide

/-- Every field of start_game's result promised by the spec, plus the ok
response. -/
theorem start_game_fields (a b : Option String) (s : GameState) :
    (start_game a b s).1.teamA.score = 0 ∧ (start_game a b s).1.teamB.score = 0 ∧
    (start_game a b s).1.used_words = [] ∧ (start_game a b s).1.phase = Phase.intro ∧
    (start_game a b s).1.last_result = none ∧ (start_game a b s).1.bonus_submitted = false ∧
    (start_game a b s).1.round_id = s.round_id + 1 ∧ (start_game a b s).2 = true := by
  cases a <;> cases b <;> simp only [start_game] <;> (try split_ifs) <;> simp

/-- Claim C10: the scan_timeout handler mutates the phase unconditionally
from every phase, with no scanning-phase guard and no round id check: a phase
whose name contains the substring bonus becomes bonus_scan_failed, and every
other phase, including intro, idle, countdown, active, scan_failed and
game_over, becomes scan_failed; no other field changes. -/
theorem claim_C10_scan_timeout_unconditional (s : GameState) :
    on_scan_timeout s =
      { s with
          phase :=
            if s.phase ∈ allBonusPhases then Phase.bonus_scan_failed else Phase.scan_failed } := by
  rw [on_scan_timeout, strContains_bonus]
  by_cases h : s.phase ∈ allBonusPhases
  · simp [h]
  · simp [h]

/-- Claim C6: from every prior state, start_game zeroes both scores, empties
usedWords, forces the intro phase, clears lastResult, clears bonusSubmitted,
strictly increases roundId, and returns ok. -/
theorem claim_C6_start_game_full_reset (a b : Option String) (s : GameState) :
    (start_game a b s).1.teamA.score = 0 ∧ (start_game a b s).1.teamB.score = 0 ∧
    (start_game a b s).1.used_words = [] ∧ (start_game a b s).1.phase = Phase.intro ∧
    (start_game a b s).1.last_result = none ∧ (start_game a b s).1.bonus_submitted = false ∧
    s.round_id < (start_game a b s).1.round_id ∧ (start_game a b s).2 = true := by
  obtain ⟨h1, h2, h3, h4, h5, h6, h7, h8⟩ := start_game_fields a b s
  exact ⟨h1, h2, h3, h4, h5, h6, by rw [h7]; exact Nat.lt_succ_self _, h8⟩

/-- After any emit_state call, the saved snapshot is the serialization of the
session at that call. -/
theorem emit_state_snd (b : Bool) (last : Option GameState) (s : GameState) :
    (emit_state b last s).2 = some (serialize s) := by
  unfold emit_state
  by_cases h : b = false ∧ last = some (serialize s)
  · rw [if_pos h, h.2]
  · rw [if_neg h]

/-- Claim C9: a second publish with no intervening mutation is suppressed, a
forced publish always goes out, and the stored comparison snapshot is a value
taken at publish time, so any mutation that changes the serialized state is
detected by the next publish. -/
theorem claim_C9_emit_dedup (s s2 : GameState) (last : Option GameState) (b : Bool) :
    ((emit_state false none s).1 = true) ∧
    ((emit_state true last s).1 = true) ∧
    ((emit_state false (emit_state b last s).2 s).1 = false) ∧
    (serialize s2 ≠ serialize s → (emit_state false (emit_state b last s).2 s2).1 = true) := by
  refine ⟨by simp [emit_state], by simp [emit_state], ?_, ?_⟩
  · rw [emit_state_snd]
    unfold emit_state
    rw [if_pos ⟨rfl, rfl⟩]
  · intro hne
    rw [emit_state_snd]
    unfold emit_state
    rw [if_neg]
    intro hc
    exact hne (Option.some.inj hc.2).symm

/-- Witness for claim C9 at a concrete pair of distinct states. -/
theorem claim_C9_witness :
    ((emit_state false none initial_state).1 = true) ∧
    ((emit_state true none initial_state).1 = true) ∧
    ((emit_state false (emit_state false none initial_state).2 initial_state).1 = false) ∧
    ((emit_state false (emit_state false none initial_state).2 exIdle).1 = true) := by
  have h := claim_C9_emit_dedup initial_state exIdle none false
  exact ⟨h.1, h.2.1, h.2.2.1, h.2.2.2 (by decide)⟩

/-- Counterexample to claim C1: the bonus-reveal-to-game-over delay timer
carries no captured round id and no guard at all.  Launched in generation 0
(for instance by the bonus submission that set the phase back to bonus_intro)
and firing after start_game has moved the session to generation 1 and phase
intro, it still forces the phase to game_over. -/
theorem claim_C1_counterexample :
    exGen1.round_id = 1 ∧ exGen1.phase = Phase.intro ∧
    (transition_to_game_over exGen1).phase = Phase.game_over ∧
    (transition_to_game_over exGen1).phase ≠ exGen1.phase := by
  decide

/-- Claim C1 as amended: the four round-id-guarded timer bodies (countdown
tick, active-round limit, bonus countdown tick, bonus-round limit) and the
scan watchdog are complete no-ops whenever the captured round id differs from
the current one; the result-clear timer carries no round id (it guards only
on the phase being idle, and touches only lastResult, never phase or scores);
and the game-over delay is unconditional and sets the phase to game_over in
every generation. -/
theorem claim_C1_amended_stale_timers (my : Nat) (now : ℤ) (s : GameState)
    (h : my ≠ s.round_id) :
    do_countdown_tick my s = s ∧
    do_countdown_timeout my now s = (s, []) ∧
    do_bonus_round_tick my s = s ∧
    do_bonus_round_timeout my now s = (s, []) ∧
    scan_watchdog my s = s ∧
    (clear_result_after_delay s).phase = s.phase ∧
    (clear_result_after_delay s).teamA = s.teamA ∧
    (clear_result_after_delay s).teamB = s.teamB ∧
    (transition_to_game_over s).phase = Phase.game_over := by
  have h1 : s.round_id ≠ my := Ne.symm h
  refine ⟨?_, ?_, ?_, ?_, ?_, ?_, ?_, ?_, rfl⟩
  · simp [do_countdown_tick, h1]
  · simp [do_countdown_timeout, h1]
  · simp [do_bonus_round_tick, h1]
  · simp [do_bonus_round_timeout, h1]
  · simp [scan_watchdog, h1]
  · unfold clear_result_after_delay
    split <;> rfl
  · unfold clear_result_after_delay
    split <;> rfl
  · unfold clear_result_after_delay
    split <;> rfl

/-- Witness for the amended claim C1: a generation-0 capture fired in
generation 1 at a concrete state. -/
theorem claim_C1_witness :
    ((0 : Nat) ≠ exGen1.round_id) ∧
    do_countdown_tick 0 exGen1 = exGen1 ∧
    do_countdown_timeout 0 0 exGen1 = (exGen1, []) ∧
    do_bonus_round_tick 0 exGen1 = exGen1 ∧
    do_bonus_round_timeout 0 0 exGen1 = (exGen1, []) ∧
    scan_watchdog 0 exGen1 = exGen1 := by
  have h := claim_C1_amended_stale_timers 0 0 exGen1 (by decide)
  exact ⟨by decide, h.1, h.2.1, h.2.2.1, h.2.2.2.1, h.2.2.2.2.1⟩

/-- Counterexample to claim C2: a submission arriving in the bonus_intro
phase (a bonus phase) with bonusSubmitted false does not take the bonus
branch: the standard-round logic runs, the phase becomes idle rather than
bonus_intro, bonusSubmitted stays false, and the result-clear timer is
scheduled instead of the game-over transition. -/
theorem claim_C2_counterexample :
    exBonusIntro.phase = Phase.bonus_intro ∧ exBonusIntro.bonus_submitted = false ∧
    (submit demoWords 0 "apple" exBonusIntro).1.phase = Phase.idle ∧
    (submit demoWords 0 "apple" exBonusIntro).1.bonus_submitted = false ∧
    (submit demoWords 0 "apple" exBonusIntro).2.2 = [TimerKind.resultClear] := by
  decide

/-- Claim C2 as amended: the bonus-round submission logic applies exactly in
the phases bonus_active, bonus_scanning and bonus_scan_failed (not in
bonus_intro or bonus_countdown, where the standard logic runs).  In those
three phases, with bonusSubmitted false, every submission, valid or invalid,
records a Result, marks bonusSubmitted, sets the phase to bonus_intro, and
schedules the game-over transition. -/
theorem claim_C2_amended_bonus_branch (words : List String) (now : ℤ) (raw : String)
    (s : GameState) (hph : s.phase ∈ bonusBranchPhases) (hsub : s.bonus_submitted = false) :
    (∃ r : Result, (submit words now raw s).1.last_result = some r) ∧
    (submit words now raw s).1.bonus_submitted = true ∧
    (submit words now raw s).1.phase = Phase.bonus_intro ∧
    (submit words now raw s).2.2 = [TimerKind.gameOverDelay] := by
  have hred : submit words now raw s = submit_bonus words now (lowerStr (stripStr raw)) s := by
    unfold submit
    rw [if_pos hph, if_neg]
    simp [hsub]
  rw [hred]
  exact ⟨⟨_, rfl⟩, rfl, rfl, rfl⟩

/-- Witness for the amended claim C2 at a concrete bonus_active state, with
an invalid word. -/
theorem claim_C2_witness :
    (submit demoWords 0 "zzz" exBonusActive).1.phase = Phase.bonus_intro ∧
    (submit demoWords 0 "zzz" exBonusActive).1.bonus_submitted = true ∧
    (submit demoWords 0 "zzz" exBonusActive).2.2 = [TimerKind.gameOverDelay] := by
  have h := claim_C2_amended_bonus_branch demoWords 0 "zzz" exBonusActive (by decide) (by decide)
  exact ⟨h.2.2.1, h.2.1, h.2.2.2⟩

/-- Counterexample to claim C7: two trigger events whose arrival times differ
by one time unit, the second of which is not a no-op.  With the last accepted
trigger recorded at time 0, a trigger at time 1 is dropped unchanged, and a
trigger at time 2 (one unit later) is accepted: it moves idle to countdown
and schedules the countdown timer. -/
theorem claim_C7_counterexample :
    ((2 : ℤ) - 1 < 2) ∧
    on_trigger 1 exIdle = (exIdle, []) ∧
    (on_trigger 2 exIdle).1 ≠ exIdle ∧
    (on_trigger 2 exIdle).2 = [TimerKind.countdownTimer] := by
  decide

/-- Claim C7 as amended: a trigger arriving strictly less than 2 time units
after the last accepted trigger (the lastTriggerAt field) is a complete
no-op: the state is unchanged, including lastTriggerAt, and no timer is
scheduled; a trigger is accepted, updating lastTriggerAt to its arrival time,
exactly when at least 2 units have elapsed since lastTriggerAt. -/
theorem claim_C7_amended_debounce (now : ℤ) (s : GameState) :
    (now - s.last_trigger_at < 2 → on_trigger now s = (s, [])) ∧
    (2 ≤ now - s.last_trigger_at → (on_trigger now s).1.last_trigger_at = now) := by
  constructor
  · intro h
    simp [on_trigger, h]
  · intro h
    have h2 : ¬(now - s.last_trigger_at < 2) := not_lt.mpr h
    obtain ⟨pi, tA, tB, uw, ct, ph, lr, lt, wt, bs, ri⟩ := s
    cases ph <;> simp [on_trigger, h2]

/-- Witness for the amended claim C7 at concrete times 1 and 2. -/
theorem claim_C7_witness :
    on_trigger 1 exIdle = (exIdle, []) ∧ (on_trigger 2 exIdle).1.last_trigger_at = 2 := by
  exact ⟨(claim_C7_amended_debounce 1 exIdle).1 (by decide),
         (claim_C7_amended_debounce 2 exIdle).2 (by decide)⟩

/-- Counterexample to claim C8: a submission in the bonus_intro phase (a
bonus phase) with bonusSubmitted already true is not rejected with
already_submitted: the standard logic runs, the word scores, and the state
changes.  This is the state the session is actually left in right after a
bonus submission is consumed. -/
theorem claim_C8_counterexample :
    exAlready.phase = Phase.bonus_intro ∧ exAlready.bonus_submitted = true ∧
    (submit demoWords 0 "apple" exAlready).2.1.reason = "ok" ∧
    (submit demoWords 0 "apple" exAlready).2.1.valid = true ∧
    (submit demoWords 0 "apple" exAlready).1.teamA.score = 3 ∧
    exAlready.teamA.score = 0 := by
  decide

/-- Claim C8 as amended: in the phases bonus_active, bonus_scanning and
bonus_scan_failed, a submission with bonusSubmitted already true returns
valid false, points 0, reason already_submitted, schedules nothing, and
leaves the entire session state unchanged, whatever the word. -/
theorem claim_C8_amended_already_submitted (words : List String) (now : ℤ) (raw : String)
    (s : GameState) (hph : s.phase ∈ bonusBranchPhases) (hsub : s.bonus_submitted = true) :
    submit words now raw s =
      (s, { valid := false, points := 0, reason := "already_submitted" }, []) := by
  unfold submit
  rw [if_pos hph, if_pos hsub]

/-- Witness for the amended claim C8 with a word that would otherwise be
valid. -/
theorem claim_C8_witness :
    submit demoWords 0 "apple" exBonusActiveDone =
      (exBonusActiveDone, { valid := false, points := 0, reason := "already_submitted" }, []) := by
  exact claim_C8_amended_already_submitted demoWords 0 "apple" exBonusActiveDone
    (by decide) (by decide)

/-- A phase outside all five bonus phases is in particular outside the three
phases of submit's bonus branch. -/
theorem notin_bonus_branch {p : Phase} (h : p ∉ allBonusPhases) : p ∉ bonusBranchPhases := by
  intro hc
  apply h
  simp only [bonusBranchPhases, allBonusPhases, List.mem_cons, List.mem_singleton,
    List.not_mem_nil] at hc ⊢
  tauto

/-- Claim C4: for a submission in any non-bonus phase, validity is exactly
length at least 5, not already used, and in the dictionary; the reason is the
first failing check in the order too_short, duplicate, not_in_dictionary,
else ok; a valid word is added to usedWords and its points to the submitting
team's score; an invalid word changes neither; currentTeam flips either way;
and the phase becomes idle. -/
theorem claim_C4_standard_submit (words : List String) (now : ℤ) (raw : String) (s : GameState)
    (hph : s.phase ∉ allBonusPhases) :
    ((submit words now raw s).2.1.valid = true ↔
      (5 ≤ (lowerStr (stripStr raw)).length ∧ lowerStr (stripStr raw) ∉ s.used_words ∧
       lowerStr (stripStr raw) ∈ words)) ∧
    (submit words now raw s).2.1.reason =
      (if (lowerStr (stripStr raw)).length < 5 then "too_short"
       else if lowerStr (stripStr raw) ∈ s.used_words then "duplicate"
       else if lowerStr (stripStr raw) ∉ words then "not_in_dictionary" else "ok") ∧
    ((submit words now raw s).2.1.valid = true →
      (submit words now raw s).1.used_words = lowerStr (stripStr raw) :: s.used_words ∧
      scoreOf s.current_team ((submit words now raw s).1) =
        scoreOf s.current_team s + (submit words now raw s).2.1.points) ∧
    ((submit words now raw s).2.1.valid = false →
      (submit words now raw s).1.used_words = s.used_words ∧
      scoreOf s.current_team ((submit words now raw s).1) = scoreOf s.current_team s) ∧
    (submit words now raw s).1.current_team = flipTeam s.current_team ∧
    (submit words now raw s).1.phase = Phase.idle := by
  have hb : s.phase ∉ bonusBranchPhases := notin_bonus_branch hph
  have hred : submit words now raw s = submit_standard words now (lowerStr (stripStr raw)) s := by
    unfold submit
    rw [if_neg hb]
  rw [hred]
  obtain ⟨pi, tA, tB, uw, ct, ph, lr, lt, wt, bs, ri⟩ := s
  by_cases h1 : (lowerStr (stripStr raw)).length < 5
  · have h1t : ((lowerStr (stripStr raw)).length < MIN_WORD_LEN) = True := eq_true h1
    have h1t5 : ((lowerStr (stripStr raw)).length < 5) = True := h1t
    have h1n : ¬(5 ≤ (lowerStr (stripStr raw)).length) := by omega
    cases ct <;> simp [submit_standard, h1t, h1t5, h1n, scoreOf]
  · have h1f : ((lowerStr (stripStr raw)).length < MIN_WORD_LEN) = False := eq_false h1
    have h1f5 : ((lowerStr (stripStr raw)).length < 5) = False := h1f
    have h1y : 5 ≤ (lowerStr (stripStr raw)).length := Nat.not_lt.mp h1
    by_cases h2 : lowerStr (stripStr raw) ∈ uw
    · cases ct <;> simp [submit_standard, h1f, h1f5, h1y, h2, scoreOf]
    · by_cases h3 : lowerStr (stripStr raw) ∈ words
      · cases ct <;> simp [submit_standard, h1f, h1f5, h1y, h2, h3, scoreOf, addScore]
      · cases ct <;> simp [submit_standard, h1f, h1f5, h1y, h2, h3, scoreOf]

/-- Witness for claim C4: the spec's own apple scenario, from the idle
phase. -/
theorem claim_C4_witness :
    (submit demoWords 0 "apple" exIdle).2.1.valid = true ∧
    (submit demoWords 0 "apple" exIdle).1.phase = Phase.idle ∧
    (submit demoWords 0 "apple" exIdle).1.current_team = flipTeam exIdle.current_team := by
  have h := claim_C4_standard_submit demoWords 0 "apple" exIdle (by decide)
  exact ⟨h.1.mpr (by decide), h.2.2.2.2.2, h.2.2.2.2.1⟩

/-- A valid bonus submission's points are the bonus table at the word
length. -/
theorem submit_bonus_valid_points (words : List String) (now : ℤ) (word : String)
    (s : GameState) :
    (submit_bonus words now word s).2.1.valid = true →
    (submit_bonus words now word s).2.1.points = bonus_points word.length := by
  unfold submit_bonus
  by_cases h1 : word.length < 5
  · simp [eq_true h1]
  · by_cases h3 : word ∈ words
    · simp [eq_false h1, h3]
    · simp [eq_false h1, h3]

/-- A valid standard submission's points are the POINTS_BY_LEN table at the
word length. -/
theorem submit_standard_valid_points (words : List String) (now : ℤ) (word : String)
    (s : GameState) :
    (submit_standard words now word s).2.1.valid = true →
    (submit_standard words now word s).2.1.points = POINTS_BY_LEN word.length := by
  unfold submit_standard
  by_cases h1 : word.length < MIN_WORD_LEN
  · simp [eq_true h1]
  · by_cases h2 : word ∈ s.used_words
    · simp [eq_false h1, h2]
    · by_cases h3 : word ∈ words
      · simp [eq_false h1, h2, h3]
      · simp [eq_false h1, h2, h3]

/-- Claim C5: the points of every valid submission are an exact function of
word length: the standard table maps 5 to 3, 6 to 5, 7 to 8, 8 to 13 and
every other length to 0, and the bonus table maps 5 to 7, 6 to 9, 7 to 13
and every length 8 or more to 20. -/
theorem claim_C5_points_table (words : List String) (now : ℤ) (raw : String) (s : GameState) :
    ((submit words now raw s).2.1.valid = true →
      (submit words now raw s).2.1.points =
        (if s.phase ∈ bonusBranchPhases then bonus_points (lowerStr (stripStr raw)).length
         else POINTS_BY_LEN (lowerStr (stripStr raw)).length)) ∧
    POINTS_BY_LEN 5 = 3 ∧ POINTS_BY_LEN 6 = 5 ∧ POINTS_BY_LEN 7 = 8 ∧ POINTS_BY_LEN 8 = 13 ∧
    (∀ m : Nat, m ≠ 5 → m ≠ 6 → m ≠ 7 → m ≠ 8 → POINTS_BY_LEN m = 0) ∧
    bonus_points 5 = 7 ∧ bonus_points 6 = 9 ∧ bonus_points 7 = 13 ∧
    (∀ m : Nat, 8 ≤ m → bonus_points m = 20) := by
  refine ⟨?_, rfl, rfl, rfl, rfl, ?_, rfl, rfl, rfl, ?_⟩
  · intro hv
    unfold submit at hv ⊢
    by_cases hph : s.phase ∈ bonusBranchPhases
    · rw [if_pos hph] at hv ⊢
      by_cases hsub : s.bonus_submitted
      · rw [if_pos hsub] at hv
        simp at hv
      · rw [if_neg hsub] at hv ⊢
        rw [if_pos hph]
        exact submit_bonus_valid_points words now _ s hv
    · rw [if_neg hph] at hv ⊢
      rw [if_neg hph]
      exact submit_standard_valid_points words now _ s hv
  · intro m h5 h6 h7 h8
    unfold POINTS_BY_LEN
    rw [if_neg h5, if_neg h6, if_neg h7, if_neg h8]
  · intro m h8
    have h5 : m ≠ 5 := by omega
    have h6 : m ≠ 6 := by omega
    have h7 : m ≠ 7 := by omega
    unfold bonus_points
    rw [if_neg h5, if_neg h6, if_neg h7, if_pos h8]

/-- Witness for claim C5 at concrete standard and bonus submissions and at
the off-table lengths. -/
theorem claim_C5_witness :
    (submit demoWords 0 "apple" initial_state).2.1.points = POINTS_BY_LEN 5 ∧
    POINTS_BY_LEN 9 = 0 ∧ bonus_points 9 = 20 ∧
    (submit demoWords 0 "festival" exBonusActive).2.1.points = bonus_points 8 := by
  obtain ⟨h1, _, _, _, _, hz, _, _, _, hb⟩ := claim_C5_points_table demoWords 0 "apple"
    initial_state
  obtain ⟨h2, _⟩ := claim_C5_points_table demoWords 0 "festival" exBonusActive
  refine ⟨?_, hz 9 (by decide) (by decide) (by decide) (by decide), hb 9 (by decide), ?_⟩
  · rw [h1 (by decide)]
    decide
  · rw [h2 (by decide)]
    decide

/-- addScore never lowers either score. -/
theorem addScore_scores_mono (t : Team) (pts : Nat) (s : GameState) :
    s.teamA.score ≤ (addScore t pts s).teamA.score ∧
    s.teamB.score ≤ (addScore t pts s).teamB.score := by
  cases t <;> simp [addScore]

/-- submit never lowers either score. -/
theorem submit_scores_mono (words : List String) (now : ℤ) (raw : String) (s : GameState) :
    s.teamA.score ≤ (submit words now raw s).1.teamA.score ∧
    s.teamB.score ≤ (submit words now raw s).1.teamB.score := by
  obtain ⟨pi, tA, tB, uw, ct, ph, lr, lt, wt, bs, ri⟩ := s
  cases ct <;>
    simp only [submit, submit_bonus, submit_standard] <;>
    split_ifs <;> simp [addScore]

/-- No single event other than start_game and reset_game ever lowers a
score. -/
theorem step_scores_mono (words : List String) (s : GameState) (op : Op)
    (h : isFullReset op = false) :
    s.teamA.score ≤ (step words s op).teamA.score ∧
    s.teamB.score ≤ (step words s op).teamB.score := by
  cases op with
  | opStartGame a b => simp [isFullReset] at h
  | opResetGame => simp [isFullReset] at h
  | opInitBonus => exact ⟨le_refl _, le_refl _⟩
  | opSubmit now raw => exact submit_scores_mono words now raw s
  | opTrigger now =>
      obtain ⟨pi, tA, tB, uw, ct, ph, lr, lt, wt, bs, ri⟩ := s
      cases ph <;> simp only [step, on_trigger] <;> split_ifs <;> exact ⟨le_refl _, le_refl _⟩
  | opTriggerSnapshot =>
      simp only [step, on_trigger_snapshot]
      split_ifs <;> exact ⟨le_refl _, le_refl _⟩
  | opScanTimeout =>
      simp only [step, on_scan_timeout]
      split_ifs <;> exact ⟨le_refl _, le_refl _⟩
  | opCountdownTick my =>
      simp only [step, do_countdown_tick]
      split_ifs <;> exact ⟨le_refl _, le_refl _⟩
  | opCountdownTimeout my now =>
      simp only [step, do_countdown_timeout]
      split_ifs <;> exact ⟨le_refl _, le_refl _⟩
  | opBonusTick my =>
      simp only [step, do_bonus_round_tick]
      split_ifs <;> exact ⟨le_refl _, le_refl _⟩
  | opBonusTimeout my now =>
      simp only [step, do_bonus_round_timeout]
      split_ifs <;> exact ⟨le_refl _, le_refl _⟩
  | opScanWatchdog my =>
      simp only [step, scan_watchdog]
      split_ifs <;> exact ⟨le_refl _, le_refl _⟩
  | opClearResult =>
      simp only [step, clear_result_after_delay]
      split_ifs <;> exact ⟨le_refl _, le_refl _⟩
  | opGameOver => exact ⟨le_refl _, le_refl _⟩

/-- Scores never decrease along any event sequence free of start_game and
reset_game. -/
theorem run_scores_mono (words : List String) (ops : List Op) :
    ∀ s : GameState, (∀ op ∈ ops, isFullReset op = false) →
      s.teamA.score ≤ (run words s ops).teamA.score ∧
      s.teamB.score ≤ (run words s ops).teamB.score := by
  induction ops with
  | nil => exact fun s _ => ⟨le_refl _, le_refl _⟩
  | cons op ops ih =>
      intro s h
      have h1 := step_scores_mono words s op (h op (List.mem_cons_self op ops))
      have h2 := ih (step words s op) (fun o ho => h o (List.mem_cons_of_mem op ho))
      exact ⟨le_trans h1.1 h2.1, le_trans h1.2 h2.2⟩

/-- Counterexample to claim C3: reset_game, described by the claim as a
partial reset that never lowers a score, zeroes both scores exactly as
start_game does. -/
theorem claim_C3_counterexample :
    exScore3.teamA.score = 3 ∧ (reset_game exScore3).teamA.score = 0 ∧
    (reset_game exScore3).teamA.score < exScore3.teamA.score := by
  decide

/-- Claim C3 as amended: each team's score is monotonically non-decreasing
along every sequence of operations that contains neither start_game nor
reset_game, and scores are reset to zero by exactly those two operations;
init_bonus and the other operations never lower a score. -/
theorem claim_C3_amended_scores_monotone :
    (∀ (words : List String) (ops : List Op) (s : GameState),
        (∀ op ∈ ops, isFullReset op = false) →
        s.teamA.score ≤ (run words s ops).teamA.score ∧
        s.teamB.score ≤ (run words s ops).teamB.score) ∧
    (∀ (a b : Option String) (s : GameState),
        (start_game a b s).1.teamA.score = 0 ∧ (start_game a b s).1.teamB.score = 0) ∧
    (∀ s : GameState, (reset_game s).teamA.score = 0 ∧ (reset_game s).teamB.score = 0) := by
  refine ⟨fun words ops s h => run_scores_mono words ops s h, fun a b s => ?_,
    fun s => ⟨rfl, rfl⟩⟩
  obtain ⟨h1, h2, _⟩ := start_game_fields a b s
  exact ⟨h1, h2⟩

/-- Witness for the amended claim C3 on a concrete reset-free event
sequence. -/
theorem claim_C3_witness :
    initial_state.teamA.score ≤
      (run demoWords initial_state [Op.opTrigger 2, Op.opSubmit 3 "apple"]).teamA.score ∧
    (start_game none none exScore3).1.teamA.score = 0 ∧
    (reset_game exScore3).teamA.score = 0 := by
  obtain ⟨hmono, hsg, hrg⟩ := claim_C3_amended_scores_monotone
  exact ⟨(hmono demoWords [Op.opTrigger 2, Op.opSubmit 3 "apple"] initial_state (by decide)).1,
         (hsg none none exScore3).1, (hrg exScore3).1⟩

end WordBlaster
